import Mathlib

/-!
Verification of `src/system_design_app/main.py` (SystemDesignChallenges).

The Python source is shallowly embedded: Python strings are modelled as
`List Char` (with `String` at the statement boundary), Python dicts as
association lists with first-occurrence lookup, and the Qt application
object as an explicit record `AppState` whose operations mirror the
methods of `SystemDesignApp` line by line.  Machine integers are `Int`
(Python integers are unbounded, so no modular wrap is needed).
-/

set_option autoImplicit false
set_option maxRecDepth 8000

/-! ## Python string primitives -/

/-- Whitespace characters removed by Python `str.strip()` (ASCII subset:
space, tab, newline, carriage return, vertical tab, form feed). -/
def pyIsSpace (c : Char) : Bool :=
  c = ' ' || c = '\t' || c = '\n' || c = '\r' || c = '\x0b' || c = '\x0c'

/-- Python `str.strip()`: drop leading and trailing whitespace. -/
def pyStripL (l : List Char) : List Char :=
  ((l.dropWhile pyIsSpace).reverse.dropWhile pyIsSpace).reverse

/-- Python `str.split(sep)` for a one-character separator: unlimited
splitting, keeping empty pieces, so the result is always nonempty
(`"".split(sep) == [""]`). -/
def pySplit (sep : Char) : List Char → List (List Char)
  | [] => [[]]
  | c :: cs =>
    match pySplit sep cs with
    | [] => [[c]]
    | t :: ts => if c = sep then [] :: t :: ts else (c :: t) :: ts

/-- Value of a nonempty string of decimal digits, `none` if empty or any
character is not an ASCII digit. -/
def digitsVal (l : List Char) : Option Nat :=
  if l.isEmpty || !(l.all Char.isDigit) then none
  else some (l.foldl (fun a c => a * 10 + (c.toNat - '0'.toNat)) 0)

/-- Python `int(s)` on a string: strip whitespace, optional sign, then a
nonempty run of decimal digits; `none` models `ValueError`.  (Python's
underscore digit grouping and non-ASCII digits are not modelled; no claim
depends on them.) -/
def pyInt (l : List Char) : Option Int :=
  match pyStripL l with
  | '+' :: ds => (digitsVal ds).map Int.ofNat
  | '-' :: ds => (digitsVal ds).map (fun n => -(n : Int))
  | ds => (digitsVal ds).map Int.ofNat

/-- String-level wrapper for `pyStripL`. -/
def pyStripS (s : String) : String :=
  String.mk (pyStripL s.data)

/-! ## Reply Parser (`SystemDesignApp.parse_and_update_grade`, main.py 345-356) -/

/-- The candidate score token of a line:
`line.split(':')[1].strip().split(' ')[0]` — the text between the first
and second colon, stripped, up to the first space. -/
def scoreToken (l : List Char) : List Char :=
  ((pySplit ' ' (pyStripL ((pySplit ':' l).getD 1 []))).headD [])

/-- Python `":" in line` (a one-character substring test is character
membership). -/
def hasColon (l : List Char) : Bool :=
  l.contains ':'

/-- The `for` loop of `parse_and_update_grade` with its surrounding
`try`: lines without a colon are skipped; on a colon line the token is
parsed with `int`; a parse failure raises `ValueError`, which the
`except` around the whole loop catches, so the loop stops and the total
accumulated so far is returned. -/
def parseLoop : List (List Char) → Int → Int
  | [], acc => acc
  | l :: ls, acc =>
    if hasColon l then
      match pyInt (scoreToken l) with
      | some n => parseLoop ls (acc + n)
      | none => acc
    else parseLoop ls acc

/-- `SystemDesignApp.parse_and_update_grade`: strip the reply, split into
lines, run the accumulating loop from 0. -/
def parse_and_update_grade (s : String) : Int :=
  parseLoop (pySplit '\n' (pyStripL s.data)) 0

/-! ## Claim C1: spec-side label-restricted total -/

/-- The four labels recognized by the specification (§4.3). -/
def recognizedLabels : List (List Char) :=
  ["Requirements Score".data, "Architecture Score".data,
   "Components Score".data, "Scalability Score".data]

/-- The pre-colon label of a line (text before the first colon). -/
def lineLabel (l : List Char) : List Char :=
  (pySplit ':' l).headD []

/-- Formalisation of claim C1 as stated (spec side): the sum of
successfully parsed tokens over exactly those lines whose pre-colon label
is one of the four recognized labels, each failing line contributing 0. -/
def c1_recognized_total (s : String) : Int :=
  (pySplit '\n' (pyStripL s.data)).foldl
    (fun acc l =>
      if hasColon l && recognizedLabels.contains (lineLabel l) then
        acc + ((pyInt (scoreToken l)).getD 0)
      else acc) 0

/-- The option values produced by attempting to parse each colon line of
the (stripped) reply, in order. -/
def tokenResults (s : String) : List (Option Int) :=
  ((pySplit '\n' (pyStripL s.data)).filter (fun l => hasColon l)).map
    (fun l => pyInt (scoreToken l))

/-- Keep the leading run of successful parses, stopping at the first
failure. -/
def takeSome : List (Option Int) → List Int
  | some n :: rest => n :: takeSome rest
  | _ => []

/-- The integer tokens that actually reach the running total: the parses
of the colon lines up to (excluding) the first parse failure. -/
def tokensBeforeFailure (s : String) : List Int :=
  takeSome (tokenResults s)

example : parse_and_update_grade "Summary: 5" = 5 := by decide
example : c1_recognized_total "Summary: 5" = 0 := by decide
example : parse_and_update_grade "a: -1" = -1 := by decide
example : parse_and_update_grade "a: x\nb: 3" = 0 := by decide
example : parse_and_update_grade "" = 0 := by decide
example :
    parse_and_update_grade
      "Requirements Score: 3 - good\nArchitecture Score: 2 - ok\nComponents Score: 4 - great\nScalability Score: 1 - weak\nSummary: fine." = 10 := by
  decide

/-- The accumulating loop computes the starting accumulator plus the sum
of the parses of the colon lines preceding the first parse failure. -/
theorem parseLoop_eq_sum (ls : List (List Char)) (acc : Int) :
    parseLoop ls acc =
      acc + (takeSome ((ls.filter (fun l => hasColon l)).map
        (fun l => pyInt (scoreToken l)))).sum := by
  induction ls generalizing acc with
  | nil => simp [parseLoop, takeSome]
  | cons l rest ih =>
    cases hc : hasColon l with
    | false => simp [parseLoop, hc, List.filter_cons, ih]
    | true =>
      cases hp : pyInt (scoreToken l) with
      | none => simp [parseLoop, hc, hp, List.filter_cons, takeSome]
      | some n =>
        simp [parseLoop, hc, hp, List.filter_cons, takeSome, ih]
        ring

/-- The parser total is the sum of the tokens that reach the running
total. -/
theorem parse_eq_sum_tokensBeforeFailure (s : String) :
    parse_and_update_grade s = (tokensBeforeFailure s).sum := by
  simpa [tokensBeforeFailure, tokenResults] using
    parseLoop_eq_sum (pySplit '\n' (pyStripL s.data)) 0

/-! ## Grade Calculator -/

/-- Modelled from the spec: the Grade Calculator of §4.4.  No
letter-grade code exists in `src/` (`main.py` only displays the numeric
total); the spec attributes the calculator to the repository, so it is
modelled from the spec wording: percentage = total/16 × 100, thresholds
≥95→A+, ≥85→A, ≥75→B, ≥65→C, ≥55→C-, ≥45→D, else F. -/
def letter_of_percentage (p : ℚ) : String :=
  if p ≥ 95 then "A+"
  else if p ≥ 85 then "A"
  else if p ≥ 75 then "B"
  else if p ≥ 65 then "C"
  else if p ≥ 55 then "C-"
  else if p ≥ 45 then "D"
  else "F"

/-- Modelled from the spec: `grade(total) -> Letter` of §4.4. -/
def letter_grade (total : Int) : String :=
  letter_of_percentage ((total : ℚ) / 16 * 100)

example : letter_grade 10 = "C-" := by norm_num [letter_grade, letter_of_percentage]
example : letter_of_percentage 95 = "A+" := by norm_num [letter_of_percentage]

/-! ## Scoring Client (`GeminiWorker`, main.py 56-103) -/

/-- Outcome of `future.result(timeout=6.5)` in `GeminiWorker.run`,
abstracting real time: the API call either returns text within the
overall timeout, exceeds it (`TimeoutError`), or raises some other
exception whose message is kept. -/
inductive ApiOutcome where
  | ok (text : String)
  | timedOut
  | raised (msg : String)
  deriving DecidableEq

/-- The signal emitted by the worker: `finished(str)` or `error(str)`. -/
inductive WorkerEmission where
  | finished (text : String)
  | error (msg : String)
  deriving DecidableEq

/-- The overall timeout passed to `future.result` (main.py 98): 6.5
seconds. -/
def gemini_overall_timeout : ℚ := 13 / 2

/-- `GeminiWorker.run` (main.py 94-103): emit `finished` on a result
within the timeout, the fixed timeout message on `TimeoutError`, and the
stringified exception otherwise. -/
def GeminiWorker.run : ApiOutcome → WorkerEmission
  | .ok t => .finished t
  | .timedOut => .error "Request timed out after 6 seconds."
  | .raised m => .error m

/-! ## Startup and the API key (main.py 10, 88-92) -/

/-- Python `os.environ.get(key)`: first binding of the key, if any. -/
def os_environ_get (env : List (String × String)) (key : String) : Option String :=
  match env with
  | [] => none
  | (k, v) :: rest => if k = key then some v else os_environ_get rest key

/-- `GEMINI_API_KEY = os.environ.get("GEMINI_API_KEY")` (main.py 10):
`None` when the variable is absent; no validation is attached. -/
def gemini_api_key (env : List (String × String)) : Option String :=
  os_environ_get env "GEMINI_API_KEY"

/-- Result of module import / `SystemDesignApp` construction as far as
the credential is concerned. -/
inductive StartupOutcome where
  | started (api_key : Option String)
  | config_error (msg : String)
  deriving DecidableEq

/-- Whether a startup outcome is a configuration failure. -/
def StartupOutcome.isConfigError : StartupOutcome → Bool
  | .config_error _ => true
  | .started _ => false

/-- Program startup as implemented (main.py 10, 367-371): the key is
read with a `None` default and never checked, so startup always reaches
the UI with whatever `os.environ.get` returned.  (Failures opening the
two read-only JSON inputs are unrelated to the credential and out of
this model's scope.) -/
def program_startup (env : List (String × String)) : StartupOutcome :=
  .started (gemini_api_key env)

/-! ## Substring machinery for the built prompt -/

/-- Whether the first list is an initial segment of the second. -/
def listStartsWith : List Char → List Char → Bool
  | [], _ => true
  | _ :: _, [] => false
  | a :: as, b :: bs => a == b && listStartsWith as bs

/-- Whether `needle` occurs contiguously inside `hay`. -/
def subList (needle : List Char) : List Char → Bool
  | [] => listStartsWith needle []
  | l@(_ :: rest) => listStartsWith needle l || subList needle rest

/-- Whether `needle` occurs as a substring of `hay`. -/
def strContains (hay needle : String) : Bool :=
  subList needle.data hay.data

theorem listStartsWith_append (n t : List Char) :
    listStartsWith n (n ++ t) = true := by
  induction n with
  | nil => rfl
  | cons c cs ih => simp [listStartsWith, ih]

theorem subList_of_listStartsWith (n h : List Char)
    (hs : listStartsWith n h = true) : subList n h = true := by
  cases h with
  | nil => simpa [subList] using hs
  | cons c cs => simp [subList, hs]

theorem subList_append_left (pre n h : List Char)
    (hs : subList n h = true) : subList n (pre ++ h) = true := by
  induction pre with
  | nil => simpa using hs
  | cons c cs ih => simp [List.cons_append, subList, ih]

/-! ## Python dicts as association lists -/

/-- Python `d.get(k)` / `d[k]`: the value at the first (unique) binding
of `k`. -/
def dictGet {α : Type} (d : List (String × α)) (k : String) : Option α :=
  match d with
  | [] => none
  | (k', v) :: rest => if k' = k then some v else dictGet rest k

/-- Python `d[k] = v`: replace the binding in place, or append a new
one. -/
def dictSet {α : Type} (d : List (String × α)) (k : String) (v : α) :
    List (String × α) :=
  match d with
  | [] => [(k, v)]
  | (k', v') :: rest =>
    if k' = k then (k, v) :: rest else (k', v') :: dictSet rest k v

theorem dictGet_dictSet_self {α : Type} (d : List (String × α)) (k : String) (v : α) :
    dictGet (dictSet d k v) k = some v := by
  induction d with
  | nil => simp [dictGet, dictSet]
  | cons p rest ih =>
    obtain ⟨k', v'⟩ := p
    by_cases h : k' = k <;> simp [dictGet, dictSet, h, ih]

theorem dictGet_dictSet_ne {α : Type} (d : List (String × α)) (k k' : String) (v : α)
    (h : k' ≠ k) : dictGet (dictSet d k v) k' = dictGet d k' := by
  induction d with
  | nil => simp [dictGet, dictSet, Ne.symm h]
  | cons p rest ih =>
    obtain ⟨k'', v''⟩ := p
    by_cases hk : k'' = k
    · subst hk
      simp [dictGet, dictSet, Ne.symm h]
    · simp only [dictSet, if_neg hk, dictGet]
      by_cases hk' : k'' = k' <;> simp [hk', ih]

theorem dictSet_keys_of_mem {α : Type} (d : List (String × α)) (k : String) (v : α)
    (h : k ∈ d.map Prod.fst) : (dictSet d k v).map Prod.fst = d.map Prod.fst := by
  induction d with
  | nil => simp at h
  | cons p rest ih =>
    obtain ⟨k', v'⟩ := p
    by_cases hk : k' = k
    · simp [dictSet, hk]
    · have : k ∈ rest.map Prod.fst := by
        simpa [hk, Ne.symm hk, eq_comm] using h
      simp [dictSet, hk, ih this]

theorem dictSet_keys_of_not_mem {α : Type} (d : List (String × α)) (k : String) (v : α)
    (h : k ∉ d.map Prod.fst) : (dictSet d k v).map Prod.fst = d.map Prod.fst ++ [k] := by
  induction d with
  | nil => simp [dictSet]
  | cons p rest ih =>
    obtain ⟨k', v'⟩ := p
    have hk : k' ≠ k := by
      intro hh
      exact h (by simp [hh])
    have : k ∉ rest.map Prod.fst := fun hh => h (by simp [hh])
    simp [dictSet, hk, ih this]

theorem dictSet_keys_nodup {α : Type} (d : List (String × α)) (k : String) (v : α)
    (h : (d.map Prod.fst).Nodup) : ((dictSet d k v).map Prod.fst).Nodup := by
  by_cases hm : k ∈ d.map Prod.fst
  · rw [dictSet_keys_of_mem d k v hm]
    exact h
  · rw [dictSet_keys_of_not_mem d k v hm]
    simp [List.nodup_append, h, hm]

theorem const_map_keys {α : Type} (qs : List String) (v : α) :
    (qs.map (fun q => (q, v))).map Prod.fst = qs := by
  induction qs with
  | nil => rfl
  | cons q rest ih => simp [ih]

theorem dictGet_const_map {α : Type} (qs : List String) (v : α) (q : String)
    (h : q ∈ qs) : dictGet (qs.map (fun q' => (q', v))) q = some v := by
  induction qs with
  | nil => simp at h
  | cons q' rest ih =>
    by_cases hq : q' = q
    · simp [dictGet, hq]
    · rcases List.mem_cons.mp h with h1 | h2
      · exact absurd h1.symm hq
      · simp [dictGet, hq, ih h2]

/-! ## Answer records and application state -/

/-- One entry of `user_responses` (the Response Store): the four section
texts plus `current_grade`, mirroring the JSON shape written by
`save_current_responses`. -/
structure AnswerRecord where
  requirements : String
  architecture : String
  components : String
  scalability : String
  current_grade : Int
  deriving DecidableEq

/-- The mutable state of `SystemDesignApp` relevant to the scoring
pipeline: the Response Store, the selected question
(`question_list.currentItem`), the four editor contents
(`toPlainText` of the `QTextEdit`s), the labels, the Grade Solution
button, and the last dispatched user-solution text (`self.worker`). -/
structure AppState where
  user_responses : List (String × AnswerRecord)
  selected : Option String
  requirements_input : String
  architecture_input : String
  components_input : String
  scalability_input : String
  question_label : String
  grade_label : String
  analysis_output : String
  analyze_enabled : Bool
  analyze_text : String
  worker : Option String
  deriving DecidableEq

/-- The `current_grade` the app reads for a question:
`user_responses.get(q, {}).get("current_grade", 0)`. -/
def gradeD (st : AppState) (q : String) : Int :=
  ((dictGet st.user_responses q).map AnswerRecord.current_grade).getD 0

/-- `SystemDesignApp.save_current_responses` (main.py 265-282): resolve
the item (argument or current selection; return unchanged when neither
exists), read the existing grade with default 0, overwrite the
question's record with the four editor texts and that grade, and flush
the store (the JSON dump writes exactly `user_responses`, so the flush
is represented by the store field itself). -/
def resolve_item (st : AppState) (item : Option String) : Option String :=
  match item with
  | none => st.selected
  | some i => some i

def save_current_responses (st : AppState) (item : Option String) : AppState :=
  match resolve_item st item with
  | none => st
  | some question_text =>
    let grade := ((dictGet st.user_responses question_text).map
      AnswerRecord.current_grade).getD 0
    let rec1 : AnswerRecord :=
      { requirements := st.requirements_input
        architecture := st.architecture_input
        components := st.components_input
        scalability := st.scalability_input
        current_grade := grade }
    { st with user_responses := dictSet st.user_responses question_text rec1 }

/-- `SystemDesignApp.load_responses_for_question` (main.py 298-303). -/
def load_responses_for_question (st : AppState) (question : String) : AppState :=
  let r := dictGet st.user_responses question
  { st with
    requirements_input := ((r.map AnswerRecord.requirements).getD "")
    architecture_input := ((r.map AnswerRecord.architecture).getD "")
    components_input := ((r.map AnswerRecord.components).getD "")
    scalability_input := ((r.map AnswerRecord.scalability).getD "") }

/-- `SystemDesignApp.question_changed` (main.py 284-296): save the
record of the question being left, then load the new question's fields,
clear the analysis output and refresh the labels. -/
def question_changed (st : AppState) (current previous : Option String) : AppState :=
  let st := match previous with
    | some p => save_current_responses st (some p)
    | none => st
  match current with
  | none => st
  | some q =>
    let st := { st with question_label := q }
    let st := load_responses_for_question st q
    let st := { st with analysis_output := "" }
    let grade := ((dictGet st.user_responses q).map AnswerRecord.current_grade).getD 0
    { st with grade_label := "Current Grade: " ++ toString grade ++ "/16" }

/-- Selecting a question in the list widget: the current item changes to
`q` and the `currentItemChanged` handler fires with the old item as
`previous`. -/
def switch_question (st : AppState) (q : String) : AppState :=
  question_changed { st with selected := some q } (some q) st.selected

/-- The sentinel substituted for a blank section (main.py 315-324). -/
def BLANK_PLACEHOLDER : String := "[USER LEFT THIS SECTION BLANK]"

/-- Python `a or b` on strings: the empty string is falsy. -/
def py_or (a b : String) : String :=
  if a = "" then b else a

/-- The text substituted for one section of the user solution:
`responses.get(field, '').strip() or '[USER LEFT THIS SECTION BLANK]'`. -/
def section_slot (t : String) : String :=
  py_or (pyStripS t) BLANK_PLACEHOLDER

/-- The `user_solution` f-string of `start_analysis` (main.py 313-325),
with its literal indentation. -/
def build_user_solution (req arch comp scal : String) : String :=
  "\n        Requirement Analysis & Scoping:\n        " ++ section_slot req ++
  "\n\n        High-Level Architecture:\n        " ++ section_slot arch ++
  "\n\n        Component Deep-Dive:\n        " ++ section_slot comp ++
  "\n\n        Scalability & Bottleneck Analysis:\n        " ++ section_slot scal ++
  "\n        "

/-- `SystemDesignApp.start_analysis` (main.py 305-331): disable the
button, write-through save, read the saved record of the current
question, build the user solution and hand it to a fresh worker.  The
real code dereferences `currentItem()` and so assumes a selection; with
no selection the model leaves the state unchanged where the code would
raise. -/
def start_analysis (st : AppState) : AppState :=
  let st := { st with analyze_enabled := false, analyze_text := "Grading..." }
  let st := save_current_responses st none
  match st.selected with
  | none => st
  | some current_question =>
    let r := dictGet st.user_responses current_question
    let sol := build_user_solution
      ((r.map AnswerRecord.requirements).getD "")
      ((r.map AnswerRecord.architecture).getD "")
      ((r.map AnswerRecord.components).getD "")
      ((r.map AnswerRecord.scalability).getD "")
    { st with worker := some sol }

/-- `SystemDesignApp.display_scores` (main.py 333-343): show the raw
reply, re-enable the button, parse the total, and write it into the
record of the question selected *now* (`currentItem()` at completion
time), then save and refresh the grade label.  The real code indexes
`user_responses[current_question]` directly and assumes both a selection
and a present record. -/
def display_scores (st : AppState) (analysis_result : String) : AppState :=
  let st := { st with analysis_output := analysis_result,
                      analyze_enabled := true, analyze_text := "Grade Solution" }
  let total_score := parse_and_update_grade analysis_result
  match st.selected with
  | none => st
  | some current_question =>
    match dictGet st.user_responses current_question with
    | none => st
    | some r =>
      let rec1 : AnswerRecord := { r with current_grade := total_score }
      let st := { st with user_responses :=
                    dictSet st.user_responses current_question rec1 }
      let st := save_current_responses st none
      { st with grade_label := "Current Grade: " ++ toString total_score ++ "/16" }

/-- `SystemDesignApp.display_error` (main.py 358-361): show the message
and re-enable the button; the Response Store is not touched. -/
def display_error (st : AppState) (error_message : String) : AppState :=
  { st with analysis_output := "An error occurred: " ++ error_message,
            analyze_enabled := true, analyze_text := "Grade Solution" }

/-! ## Loading the Response Store (`load_or_create_responses`, main.py 248-263) -/

/-- A JSON scalar stored in a response record on disk. -/
inductive JVal where
  | jstr (s : String)
  | jint (n : Int)
  deriving DecidableEq

/-- A JSON object: field names to scalar values, keys unique. -/
abbrev JObj := List (String × JVal)

/-- The fresh record written for an unknown question (main.py 255,
260). -/
def default_answer_record : JObj :=
  [("requirements", JVal.jstr ""), ("architecture", JVal.jstr ""),
   ("components", JVal.jstr ""), ("scalability", JVal.jstr ""),
   ("current_grade", JVal.jint 0)]

/-- The body of the `for q in self.questions` loop (main.py 253-257):
insert a fresh record for a missing question, add `current_grade: 0` to
a record lacking it, and leave anything else alone. -/
def ensure_question (d : List (String × JObj)) (q : String) : List (String × JObj) :=
  match dictGet d q with
  | none => dictSet d q default_answer_record
  | some r =>
    match dictGet r "current_grade" with
    | none => dictSet d q (dictSet r "current_grade" (JVal.jint 0))
    | some _ => d

/-- `SystemDesignApp.load_or_create_responses` (main.py 248-263): with a
readable, decodable store (`some` of its dict-of-records content) run
the repair loop over all questions; a `FileNotFoundError` or
`JSONDecodeError` (`none`) reinitialises the store with an empty record
and grade 0 per question (and writes it back, represented by the
returned store). -/
def load_or_create_responses (questions : List String)
    (file : Option (List (String × JObj))) : List (String × JObj) :=
  match file with
  | some responses => questions.foldl ensure_question responses
  | none => questions.map (fun q => (q, default_answer_record))

/-- A question has exactly one loadable record carrying a
`current_grade` field. -/
def hasGradedRecord (d : List (String × JObj)) (q : String) : Prop :=
  ∃ r, dictGet d q = some r ∧ dictGet r "current_grade" ≠ none

theorem ensure_question_self (d : List (String × JObj)) (q : String) :
    hasGradedRecord (ensure_question d q) q := by
  unfold hasGradedRecord
  cases hd : dictGet d q with
  | none =>
    refine ⟨default_answer_record, ?_, ?_⟩
    · simp [ensure_question, hd, dictGet_dictSet_self]
    · simp [default_answer_record, dictGet]
  | some r =>
    cases hg : dictGet r "current_grade" with
    | none =>
      refine ⟨dictSet r "current_grade" (JVal.jint 0), ?_, ?_⟩
      · simp [ensure_question, hd, hg, dictGet_dictSet_self]
      · simp [dictGet_dictSet_self]
    | some v => exact ⟨r, by simp [ensure_question, hd, hg], by simp [hg]⟩

theorem ensure_question_mono (d : List (String × JObj)) (q k : String)
    (h : hasGradedRecord d k) : hasGradedRecord (ensure_question d q) k := by
  by_cases hqk : q = k
  · subst hqk
    exact ensure_question_self d q
  · obtain ⟨r, hr, hg⟩ := h
    refine ⟨r, ?_, hg⟩
    cases hd : dictGet d q with
    | none =>
      simp [ensure_question, hd, dictGet_dictSet_ne d q k _ (Ne.symm hqk), hr]
    | some r' =>
      cases hg' : dictGet r' "current_grade" with
      | none =>
        simp [ensure_question, hd, hg', dictGet_dictSet_ne d q k _ (Ne.symm hqk), hr]
      | some v => simp [ensure_question, hd, hg', hr]

theorem ensure_question_nodup (d : List (String × JObj)) (q : String)
    (h : (d.map Prod.fst).Nodup) : ((ensure_question d q).map Prod.fst).Nodup := by
  cases hd : dictGet d q with
  | none => simpa [ensure_question, hd] using dictSet_keys_nodup d q _ h
  | some r =>
    cases hg : dictGet r "current_grade" with
    | none => simpa [ensure_question, hd, hg] using dictSet_keys_nodup d q _ h
    | some v => simpa [ensure_question, hd, hg] using h

theorem foldl_ensure_mono (qs : List String) (d : List (String × JObj)) (k : String)
    (h : hasGradedRecord d k) : hasGradedRecord (qs.foldl ensure_question d) k := by
  induction qs generalizing d with
  | nil => exact h
  | cons q rest ih => exact ih _ (ensure_question_mono d q k h)

theorem foldl_ensure_self (qs : List String) (d : List (String × JObj)) (q : String)
    (h : q ∈ qs) : hasGradedRecord (qs.foldl ensure_question d) q := by
  induction qs generalizing d with
  | nil => simp at h
  | cons q' rest ih =>
    simp only [List.foldl_cons]
    rcases List.mem_cons.mp h with h1 | h2
    · subst h1
      exact foldl_ensure_mono rest _ q (ensure_question_self d q)
    · exact ih (ensure_question d q') h2

theorem foldl_ensure_nodup (qs : List String) (d : List (String × JObj))
    (h : (d.map Prod.fst).Nodup) :
    (((qs.foldl ensure_question d)).map Prod.fst).Nodup := by
  induction qs generalizing d with
  | nil => exact h
  | cons q rest ih => exact ih _ (ensure_question_nodup d q h)

/-! ## Frame lemmas about saving and the scoring flow -/

theorem save_selected (st : AppState) (item : Option String) :
    (save_current_responses st item).selected = st.selected := by
  cases hr : resolve_item st item <;> simp [save_current_responses, hr]

theorem gradeD_congr (st st' : AppState)
    (h : st.user_responses = st'.user_responses) (q : String) :
    gradeD st q = gradeD st' q := by
  simp [gradeD, h]

/-- Saving never changes any question's stored grade: the written record
carries the grade that was already there (default 0). -/
theorem gradeD_save (st : AppState) (item : Option String) (q : String) :
    gradeD (save_current_responses st item) q = gradeD st q := by
  cases hr : resolve_item st item with
  | none => simp [save_current_responses, hr]
  | some qt =>
    by_cases hq : q = qt
    · subst hq
      simp [save_current_responses, hr, gradeD, dictGet_dictSet_self]
    · simp [save_current_responses, hr, gradeD,
        dictGet_dictSet_ne st.user_responses qt q _ hq]

theorem start_analysis_user_responses (st : AppState) :
    (start_analysis st).user_responses =
      (save_current_responses
        { st with analyze_enabled := false, analyze_text := "Grading..." }
        none).user_responses := by
  unfold start_analysis
  cases h : (save_current_responses
      { st with analyze_enabled := false, analyze_text := "Grading..." }
      none).selected with
  | none => simp [h]
  | some q => simp [h]

/-- Dispatching a scoring call (button state change plus write-through
save) leaves every stored grade unchanged. -/
theorem gradeD_start_analysis (st : AppState) (q : String) :
    gradeD (start_analysis st) q = gradeD st q := by
  calc gradeD (start_analysis st) q
      = gradeD (save_current_responses
          { st with analyze_enabled := false, analyze_text := "Grading..." }
          none) q := gradeD_congr _ _ (start_analysis_user_responses st) q
    _ = gradeD { st with analyze_enabled := false, analyze_text := "Grading..." } q :=
        gradeD_save _ none q
    _ = gradeD st q := rfl

theorem subList_middle (pre post n : List Char) :
    subList n (pre ++ (n ++ post)) = true :=
  subList_append_left pre n (n ++ post)
    (subList_of_listStartsWith _ _ (listStartsWith_append n post))

theorem strData_append : ∀ (a b : String), (a ++ b).data = a.data ++ b.data
  | ⟨_⟩, ⟨_⟩ => rfl

/-! ## Claims -/

/-- Claim C1, counterexample: the parser does not restrict to the four
recognized labels.  On the reply `"Summary: 5"` the code returns total 5,
while the claimed label-restricted sum is 0, since `Summary` is not a
recognized label. -/
theorem c1_label_restriction_fails :
    parse_and_update_grade "Summary: 5" = 5
    ∧ c1_recognized_total "Summary: 5" = 0
    ∧ parse_and_update_grade "Summary: 5" ≠ c1_recognized_total "Summary: 5" := by
  decide

/-- Claim C1 (amended): the total returned by the reply parser equals the
sum of the integer tokens parsed immediately after the first colon over
all colon-containing lines up to (and excluding) the first line whose
token fails to parse, with no restriction on the pre-colon label. -/
theorem c1_total_sums_all_colon_lines (s : String) :
    parse_and_update_grade s = (tokensBeforeFailure s).sum :=
  parse_eq_sum_tokensBeforeFailure s

/-- Claim C2, counterexample: the total is not always non-negative — a
parsed negative token such as `"a: -1"` makes the returned total
negative. -/
theorem c2_negative_total_possible :
    parse_and_update_grade "a: -1" = -1 ∧ parse_and_update_grade "a: -1" < 0 := by
  decide

/-- Claim C2 (amended): the reply parser is total (a total function of
the input string, never raising) and returns an integer; the total is
non-negative whenever every successfully parsed token is non-negative,
and in particular is 0 when nothing parses. -/
theorem c2_total_nonneg_of_tokens_nonneg (s : String)
    (h : ∀ n ∈ tokensBeforeFailure s, 0 ≤ n) :
    0 ≤ parse_and_update_grade s := by
  rw [parse_eq_sum_tokensBeforeFailure s]
  exact List.sum_nonneg h

/-- Witness for C2 at a concrete reply. -/
theorem c2_total_nonneg_witness :
    0 ≤ parse_and_update_grade "Requirements Score: 3 - good" :=
  c2_total_nonneg_of_tokens_nonneg "Requirements Score: 3 - good" (by decide)

/-- Claim C3, counterexample: a failing line is not skipped — it aborts
the rest of the parse.  The line `"b: 3"` contributes 3 on its own, but
contributes nothing when it follows the unparseable line `"a: x"`. -/
theorem c3_failure_aborts_rest :
    parse_and_update_grade "a: x\nb: 3" = 0 ∧ parse_and_update_grade "b: 3" = 3 := by
  decide

/-- Claim C3 (amended): when a colon-containing line fails integer
parsing, the parser stops at that line: the lines before it still
contribute their parsed tokens, and every later line (parseable or not)
contributes nothing. -/
theorem c3_stops_at_first_failure (ls1 ls2 : List (List Char)) (l : List Char)
    (h2 : hasColon l = true) (h3 : pyInt (scoreToken l) = none) :
    ∀ acc : Int,
      (∀ m ∈ ls1, hasColon m = true → (pyInt (scoreToken m)).isSome = true) →
      parseLoop (ls1 ++ l :: ls2) acc = parseLoop ls1 acc := by
  induction ls1 with
  | nil =>
    intro acc _
    simp [parseLoop, h2, h3]
  | cons m rest ih =>
    intro acc h1
    cases hc : hasColon m with
    | false =>
      simp only [List.cons_append, parseLoop, hc, Bool.false_eq_true, if_false]
      exact ih acc (fun x hx hcx => h1 x (List.mem_cons_of_mem m hx) hcx)
    | true =>
      have hs := h1 m (List.mem_cons_self m rest) hc
      obtain ⟨n, hn⟩ := Option.isSome_iff_exists.mp hs
      simp only [List.cons_append, parseLoop, hc, if_true, hn]
      exact ih (acc + n) (fun x hx hcx => h1 x (List.mem_cons_of_mem m hx) hcx)

/-- Witness for C3: a parse failure on `"b: x"` discards the later
parseable line `"c: 2"`, leaving only the earlier `"a: 1"`. -/
theorem c3_stops_witness :
    parseLoop (["a: 1".data] ++ "b: x".data :: ["c: 2".data]) 0 =
      parseLoop ["a: 1".data] 0
    ∧ parseLoop ["a: 1".data] 0 = 1 :=
  ⟨c3_stops_at_first_failure ["a: 1".data] ["c: 2".data] "b: x".data
      (by decide) (by decide) 0 (by decide),
   by decide⟩

/-- Initial state for the mid-flight question-switch scenario: two
questions, both with grade 0, question Q1 selected with its text in the
editors. -/
def c4_initial : AppState :=
  { user_responses :=
      [("Q1", { requirements := "r1", architecture := "a1", components := "c1",
                scalability := "s1", current_grade := 0 }),
       ("Q2", { requirements := "", architecture := "", components := "",
                scalability := "", current_grade := 0 })]
    selected := some "Q1"
    requirements_input := "r1"
    architecture_input := "a1"
    components_input := "c1"
    scalability_input := "s1"
    question_label := "Q1"
    grade_label := "Current Grade: 0/16"
    analysis_output := ""
    analyze_enabled := true
    analyze_text := "Grade Solution"
    worker := none }

/-- Dispatch at Q1, switch to Q2 while the call is in flight, then the
reply arrives. -/
def c4_final : AppState :=
  display_scores (switch_question (start_analysis c4_initial) "Q2")
    "Requirements Score: 3 - ok"

/-- Claim C4 is violated by the code: `display_scores` reads
`question_list.currentItem()` at completion time, so after dispatching at
Q1 and switching to Q2 mid-flight, the parsed total 3 is written into
Q2's record while Q1 — the question active at dispatch time, whose
solution was the one scored — keeps grade 0. -/
theorem c4_grade_written_to_completion_selection :
    (dictGet c4_final.user_responses "Q1").map AnswerRecord.current_grade = some 0
    ∧ (dictGet c4_final.user_responses "Q2").map AnswerRecord.current_grade = some 3
    ∧ parse_and_update_grade "Requirements Score: 3 - ok" = 3 := by
  decide

/-- Claim C5: the worker enforces an overall 6.5-second timeout on the
future; on expiry it emits the timeout error message and never a
`finished` signal, and the error path (`display_error` after
`start_analysis`) leaves the active question's stored `current_grade`
exactly as it was before the attempt. -/
theorem c5_timeout_error_and_grade_preserved (st : AppState) (q msg : String)
    (_h : st.selected = some q) :
    GeminiWorker.run ApiOutcome.timedOut =
      WorkerEmission.error "Request timed out after 6 seconds."
    ∧ (∀ t, GeminiWorker.run ApiOutcome.timedOut ≠ WorkerEmission.finished t)
    ∧ gemini_overall_timeout = 13 / 2
    ∧ gradeD (display_error (start_analysis st) msg) q = gradeD st q := by
  refine ⟨rfl, ?_, rfl, ?_⟩
  · intro t ht
    cases ht
  · have h1 : gradeD (display_error (start_analysis st) msg) q =
        gradeD (start_analysis st) q := rfl
    rw [h1, gradeD_start_analysis]

/-- A concrete application state used to instantiate the hypothesised
claim theorems. -/
def sample_state : AppState :=
  { user_responses :=
      [("Q1", { requirements := "r", architecture := "a", components := "c",
                scalability := "s", current_grade := 7 })]
    selected := some "Q1"
    requirements_input := "r2"
    architecture_input := "a2"
    components_input := "c2"
    scalability_input := "s2"
    question_label := "Q1"
    grade_label := "Current Grade: 7/16"
    analysis_output := ""
    analyze_enabled := true
    analyze_text := "Grade Solution"
    worker := none }

/-- Witness for C5 at a concrete state: a failed attempt leaves Q1's
grade at its prior value. -/
theorem c5_timeout_witness :
    gradeD (display_error (start_analysis sample_state) "boom") "Q1" =
      gradeD sample_state "Q1" :=
  (c5_timeout_error_and_grade_preserved sample_state "Q1" "boom" rfl).2.2.2

/-- Claim C6: the Grade Calculator (modelled from the spec, §4.4) maps
total 10 to `C-`, each exact boundary percentage to the higher-grade
bucket, percentages just below each boundary to the lower bucket, and
the representative totals of §8 to their stated letters. -/
theorem c6_letter_grade_thresholds :
    letter_grade 10 = "C-"
    ∧ letter_of_percentage 95 = "A+" ∧ letter_of_percentage 85 = "A"
    ∧ letter_of_percentage 75 = "B" ∧ letter_of_percentage 65 = "C"
    ∧ letter_of_percentage 55 = "C-" ∧ letter_of_percentage 45 = "D"
    ∧ letter_of_percentage 94 = "A" ∧ letter_of_percentage 84 = "B"
    ∧ letter_of_percentage 74 = "C" ∧ letter_of_percentage 64 = "C-"
    ∧ letter_of_percentage 54 = "D" ∧ letter_of_percentage 44 = "F"
    ∧ letter_grade 16 = "A+" ∧ letter_grade 14 = "A" ∧ letter_grade 12 = "B"
    ∧ letter_grade 11 = "C" ∧ letter_grade 9 = "C-" ∧ letter_grade 8 = "D"
    ∧ letter_grade 7 = "F" := by
  norm_num [letter_grade, letter_of_percentage]

/-- Claim C7, counterexample: the built user solution contains the
literal placeholder even though no section's trimmed text is empty — it
suffices that a section's text is the placeholder string itself, so the
containment is not "exactly when" a section is blank. -/
theorem c7_placeholder_without_blank_section :
    strContains
      (build_user_solution BLANK_PLACEHOLDER "a" "b" "c") BLANK_PLACEHOLDER = true
    ∧ pyStripS BLANK_PLACEHOLDER ≠ "" ∧ pyStripS "a" ≠ ""
    ∧ pyStripS "b" ≠ "" ∧ pyStripS "c" ≠ "" := by
  decide

/-- Claim C7 (amended): for each answer section, the substituted slot in
the built user solution is the placeholder exactly when the section's
trimmed text is empty or is itself the placeholder string; whenever the
trimmed text is nonempty the slot is the trimmed text verbatim; and each
slot occurs in the built user solution. -/
theorem c7_slot_characterization (w x y z : String) :
    (section_slot w = BLANK_PLACEHOLDER ↔
      (pyStripS w = "" ∨ pyStripS w = BLANK_PLACEHOLDER))
    ∧ (pyStripS w ≠ "" → section_slot w = pyStripS w)
    ∧ strContains (build_user_solution w x y z) (section_slot w) = true
    ∧ strContains (build_user_solution w x y z) (section_slot x) = true
    ∧ strContains (build_user_solution w x y z) (section_slot y) = true
    ∧ strContains (build_user_solution w x y z) (section_slot z) = true := by
  refine ⟨?_, ?_, ?_, ?_, ?_, ?_⟩
  · by_cases h : pyStripS w = "" <;> simp [section_slot, py_or, h]
  · intro h
    simp [section_slot, py_or, h]
  · simpa [strContains, build_user_solution, strData_append, List.append_assoc] using
      subList_middle "\n        Requirement Analysis & Scoping:\n        ".data
        (("\n\n        High-Level Architecture:\n        " ++ section_slot x ++
          "\n\n        Component Deep-Dive:\n        " ++ section_slot y ++
          "\n\n        Scalability & Bottleneck Analysis:\n        " ++ section_slot z ++
          "\n        ").data)
        (section_slot w).data
  · simpa [strContains, build_user_solution, strData_append, List.append_assoc] using
      subList_middle
        ("\n        Requirement Analysis & Scoping:\n        " ++ section_slot w ++
          "\n\n        High-Level Architecture:\n        ").data
        (("\n\n        Component Deep-Dive:\n        " ++ section_slot y ++
          "\n\n        Scalability & Bottleneck Analysis:\n        " ++ section_slot z ++
          "\n        ").data)
        (section_slot x).data
  · simpa [strContains, build_user_solution, strData_append, List.append_assoc] using
      subList_middle
        ("\n        Requirement Analysis & Scoping:\n        " ++ section_slot w ++
          "\n\n        High-Level Architecture:\n        " ++ section_slot x ++
          "\n\n        Component Deep-Dive:\n        ").data
        (("\n\n        Scalability & Bottleneck Analysis:\n        " ++ section_slot z ++
          "\n        ").data)
        (section_slot y).data
  · simpa [strContains, build_user_solution, strData_append, List.append_assoc] using
      subList_middle
        ("\n        Requirement Analysis & Scoping:\n        " ++ section_slot w ++
          "\n\n        High-Level Architecture:\n        " ++ section_slot x ++
          "\n\n        Component Deep-Dive:\n        " ++ section_slot y ++
          "\n\n        Scalability & Bottleneck Analysis:\n        ").data
        ("\n        ".data)
        (section_slot z).data

/-- Witness for C7: a nonempty section appears trimmed and verbatim. -/
theorem c7_slot_witness : section_slot " q " = pyStripS " q " :=
  (c7_slot_characterization " q " "a" "b" "c").2.1 (by decide)

/-- Claim C8: after loading, every question of the canonical-solutions
input has exactly one record (unique keys and a present binding) whose
`current_grade` field is present, and a missing or undecodable Response
Store file is recovered by reinitialising every question with an empty
record and grade 0 rather than failing. -/
theorem c8_load_ensures_graded_records (qs : List String)
    (file : Option (List (String × JObj)))
    (hq : qs.Nodup)
    (hf : ∀ d, file = some d → (d.map Prod.fst).Nodup) :
    (((load_or_create_responses qs file).map Prod.fst).Nodup
      ∧ ∀ q ∈ qs, hasGradedRecord (load_or_create_responses qs file) q)
    ∧ load_or_create_responses qs none =
        qs.map (fun q => (q, default_answer_record)) := by
  refine ⟨?_, rfl⟩
  cases file with
  | none =>
    constructor
    · simp only [load_or_create_responses]
      rw [const_map_keys]
      exact hq
    · intro q hmem
      refine ⟨default_answer_record, ?_, by decide⟩
      simpa [load_or_create_responses] using dictGet_const_map qs default_answer_record q hmem
  | some d =>
    exact ⟨foldl_ensure_nodup qs d (hf d rfl),
      fun q hmem => foldl_ensure_self qs d q hmem⟩

/-- Witness for C8: one question, a record missing its grade on disk;
after loading the record exists and carries a grade. -/
theorem c8_load_witness :
    hasGradedRecord
      (load_or_create_responses ["q"]
        (some [("q", [("requirements", JVal.jstr "x")])])) "q" :=
  ((c8_load_ensures_graded_records ["q"]
      (some [("q", [("requirements", JVal.jstr "x")])])
      (by decide) (fun d hd => by cases hd; decide)).1.2) "q" (by decide)

/-- Claim C9, counterexample: with an empty process environment (no
`GEMINI_API_KEY`), startup is not a configuration error — the program
simply starts with the key read as `None`. -/
theorem c9_startup_accepts_missing_key :
    StartupOutcome.isConfigError (program_startup []) = false
    ∧ gemini_api_key [] = none := by
  decide

/-- Claim C9 (amended): the credential is never checked at startup —
startup always succeeds carrying whatever `os.environ.get` returned, so
a missing key can surface only later, through the scoring call's
exception path, which the worker reports as a scoring error. -/
theorem c9_key_absence_deferred (env : List (String × String)) (m : String) :
    program_startup env = StartupOutcome.started (gemini_api_key env)
    ∧ StartupOutcome.isConfigError (program_startup env) = false
    ∧ GeminiWorker.run (ApiOutcome.raised m) = WorkerEmission.error m :=
  ⟨rfl, rfl, rfl⟩

/-- Claim C10: every save of the current answer overwrites exactly the
four text fields of the resolved question's record from the editors,
keeps its `current_grade` at the previously stored value (0 if the
record did not exist), and leaves every other question's record
untouched. -/
theorem c10_save_overwrites_texts_preserves_grade (st : AppState)
    (item : Option String) (q : String)
    (h : item = some q ∨ (item = none ∧ st.selected = some q)) :
    dictGet (save_current_responses st item).user_responses q =
      some { requirements := st.requirements_input
             architecture := st.architecture_input
             components := st.components_input
             scalability := st.scalability_input
             current_grade := gradeD st q }
    ∧ ∀ k, k ≠ q →
        dictGet (save_current_responses st item).user_responses k =
          dictGet st.user_responses k := by
  have hr : resolve_item st item = some q := by
    rcases h with h1 | ⟨h1, h2⟩
    · simp [resolve_item, h1]
    · simp [resolve_item, h1, h2]
  constructor
  · simp [save_current_responses, hr, gradeD, dictGet_dictSet_self]
  · intro k hk
    simp [save_current_responses, hr,
      dictGet_dictSet_ne st.user_responses q k _ hk]

/-- Witness for C10 at a concrete state: the save keeps Q1's stored
grade 7 while replacing its texts with the editor contents. -/
theorem c10_save_witness :
    dictGet (save_current_responses sample_state none).user_responses "Q1" =
      some { requirements := "r2", architecture := "a2", components := "c2",
             scalability := "s2", current_grade := 7 } := by
  have h := (c10_save_overwrites_texts_preserves_grade sample_state none "Q1"
    (Or.inr ⟨rfl, rfl⟩)).1
  rw [h]
  simp [sample_state, gradeD, dictGet]
